import Mathlib

/-!
Verification development for the HouseholdRNG multi-stage household
generation pipeline (`src/generator/`).

The Python source is shallowly embedded: pandas DataFrames become lists of
rows, `numpy` random draws become explicit draw arguments supplied per call
(a natural number for `randint`-style draws, a rational in `[0,1)` for
`random()`/`uniform`-style draws), Python floats become rationals, machine
ints become `Int`, and Python exceptions become `Except` results.
-/

namespace HouseholdRNG

/-! ## Random-draw primitives -/

/-- Model of `np.random.randint(lo, hi)` when `lo < hi`: the draw `u` selects
the value `lo + u % (hi - lo)`, which ranges over `[lo, hi)` as `u` ranges
over the naturals.  (`np.random.randint` raises when `lo >= hi`; the callers
embedded below only reach it with `lo < hi`, and the bracket-sampling
embedding wraps this in `Except` for the degenerate case.) -/
def npRandintVal (lo hi : ℤ) (u : ℕ) : ℤ :=
  lo + ((u % (hi - lo).toNat : ℕ) : ℤ)

theorem npRandintVal_lower (lo hi : ℤ) (u : ℕ) : lo ≤ npRandintVal lo hi u := by
  have h : (0 : ℤ) ≤ ((u % (hi - lo).toNat : ℕ) : ℤ) := Int.ofNat_nonneg _
  simpa [npRandintVal] using h

theorem npRandintVal_upper (lo hi : ℤ) (u : ℕ) (h : lo < hi) :
    npRandintVal lo hi u < hi := by
  have hpos : 0 < (hi - lo).toNat := by omega
  have hmod : u % (hi - lo).toNat < (hi - lo).toNat := Nat.mod_lt _ hpos
  have hcast : ((u % (hi - lo).toNat : ℕ) : ℤ) < ((hi - lo).toNat : ℤ) :=
    Int.ofNat_lt.mpr hmod
  have htn : ((hi - lo).toNat : ℤ) = hi - lo := Int.toNat_of_nonneg (by omega)
  simp only [npRandintVal]
  omega

/-- Model of `np.random.uniform(a, b)`: the draw `u ∈ [0,1)` is mapped
affinely onto `[a, b)`. -/
def npUniform (a b : ℚ) (u : ℚ) : ℚ := a + u * (b - a)

/-- Python's `int(...)` applied to a rational: truncation toward zero. -/
def pyInt (q : ℚ) : ℤ := if 0 ≤ q then ⌊q⌋ else -⌊-q⌋

theorem pyInt_nonneg {q : ℚ} (h : 0 ≤ q) : 0 ≤ pyInt q := by
  simp only [pyInt, if_pos h]
  exact Int.le_floor.mpr (by exact_mod_cast h)

theorem pyInt_mono {a b : ℚ} (ha : 0 ≤ a) (hab : a ≤ b) : pyInt a ≤ pyInt b := by
  simp only [pyInt, if_pos ha, if_pos (le_trans ha hab)]
  exact Int.floor_le_floor hab

/-! ## Sampling Engine: `weighted_sample` (sampler.py) -/

/-- A row of a distribution table: a weight-column value plus opaque payload
standing for the remaining named fields. -/
structure Row where
  weight : ℚ
  payload : ℕ
  deriving DecidableEq, Repr

/-- Walk the per-row probabilities, selecting the first row whose cumulative
probability exceeds the draw `u`; model of `np.random.choice(len(df), p=probs)`
at a single draw. -/
def pickByProb {α : Type} : List (α × ℚ) → ℚ → Option α
  | [], _ => none
  | (a, p) :: rest, u => if u < p then some a else pickByProb rest (u - p)

/-- Model of `weighted_sample(df, weight_col)` (sampler.py lines 12-47) at
`n = 1`.  `table` is the DataFrame's rows, `w` reads the designated weight
column, `u ∈ [0,1)` is the random draw.  The two `ValueError` branches of the
source (empty table; all weights summing to zero) become `Except.error`. -/
def weightedSample {α : Type} (table : List α) (w : α → ℚ) (u : ℚ) :
    Except String α :=
  match table with
  | [] => Except.error "Cannot sample from empty DataFrame"
  | a :: rest =>
    if ((a :: rest).map w).sum = 0 then
      Except.error "All weights are zero - cannot sample"
    else
      let total := ((a :: rest).map w).sum
      Except.ok ((pickByProb ((a :: rest).map (fun r => (r, w r / total))) u).getD a)

/-- C2: `weighted_sample` on one positive-weight row always returns that row;
on an empty table it raises; and it raises when the row weights sum to zero. -/
theorem weightedSample_spec :
    (∀ (w : Row → ℚ) (u : ℚ),
        weightedSample ([] : List Row) w u =
          Except.error "Cannot sample from empty DataFrame") ∧
    (∀ (r : Row) (w : Row → ℚ) (u : ℚ), 0 < w r → 0 ≤ u → u < 1 →
        weightedSample [r] w u = Except.ok r) ∧
    (∀ (r : Row) (rest : List Row) (w : Row → ℚ) (u : ℚ),
        ((r :: rest).map w).sum = 0 →
        weightedSample (r :: rest) w u =
          Except.error "All weights are zero - cannot sample") := by
  refine ⟨fun w u => rfl, fun r w u hw hu0 hu1 => ?_, fun r rest w u hsum => ?_⟩
  · have hsum : ([r].map w).sum = w r := by simp
    have hne : ([r].map w).sum ≠ 0 := by rw [hsum]; exact ne_of_gt hw
    simp only [weightedSample, if_neg hne]
    simp only [pickByProb, List.map]
    split <;> simp
  · simp only [List.map_cons, List.sum_cons] at hsum
    simp [weightedSample, hsum]

/-- Witness for C2: concrete instantiation of the single-positive-row case. -/
theorem weightedSample_spec_witness :
    weightedSample [(⟨3, 7⟩ : Row)] Row.weight (1/2) = Except.ok ⟨3, 7⟩ :=
  weightedSample_spec.2.1 ⟨3, 7⟩ Row.weight (1/2) (by norm_num) (by norm_num)
    (by norm_num)

/-! ## Adult Generator: age sampling (adult_generator.py) -/

/-- Pattern-specific valid householder age window
(`_sample_householder_age`, adult_generator.py lines 252-263). -/
def householderAgeWindow (pattern : String) : ℤ × ℤ :=
  if pattern = "single_parent" then (20, 65)
  else if pattern = "married_couple_with_children" ∨ pattern = "blended_family" then
    (22, 55)
  else if pattern = "multigenerational" then (30, 75)
  else (18, 85)

/-- Model of `AdultGenerator._sample_householder_age`: `bracketAge?` is
`some a` when the `employment_by_age` table yields a bracket-sampled age `a`
(any integer the bracket sampler can produce), and `none` on the
uniform-in-window fallback path with draw `u`. -/
def sampleHouseholderAge (pattern : String) (bracketAge? : Option ℤ) (u : ℕ) : ℤ :=
  let w := householderAgeWindow pattern
  match bracketAge? with
  | some age => max w.1 (min w.2 age)
  | none => npRandintVal w.1 (w.2 + 1) u

/-- The householder age always lands in the pattern's window; in particular a
multigenerational householder is at least 30 (which backs the reachability
hypothesis of the child-age-gap theorem below). -/
theorem sampleHouseholderAge_mem (pattern : String) (bracketAge? : Option ℤ)
    (u : ℕ) :
    (householderAgeWindow pattern).1 ≤ sampleHouseholderAge pattern bracketAge? u ∧
    sampleHouseholderAge pattern bracketAge? u ≤ (householderAgeWindow pattern).2 := by
  have hlohi : (householderAgeWindow pattern).1 ≤ (householderAgeWindow pattern).2 := by
    unfold householderAgeWindow
    split_ifs <;> norm_num
  cases bracketAge? with
  | some age => simp only [sampleHouseholderAge]; omega
  | none =>
    have h1 := npRandintVal_lower (householderAgeWindow pattern).1
      ((householderAgeWindow pattern).2 + 1) u
    have h2 := npRandintVal_upper (householderAgeWindow pattern).1
      ((householderAgeWindow pattern).2 + 1) u (by omega)
    simp only [sampleHouseholderAge]
    omega

/-- Model of `AdultGenerator._sample_parent_age` (adult_generator.py lines
337-347): with a householder present the parent is the householder's age plus
`np.random.randint(18, 40)`, capped at 95; without one, `randint(55, 85)`. -/
def sampleParentAge (householderAge? : Option ℤ) (u : ℕ) : ℤ :=
  match householderAge? with
  | none => npRandintVal 55 85 u
  | some hAge => min 95 (hAge + npRandintVal 18 40 u)

/-- C8 counterexample: the claim that the parent-age offset is drawn from
18 to 40 inclusive fails, because `np.random.randint(18, 40)` excludes its
upper endpoint: with a householder aged 50 the claimed-possible parent age
`min 95 (50 + 40) = 90` is produced by no draw. -/
theorem sampleParentAge_offset40_unreachable :
    ¬ (∀ k : ℤ, 18 ≤ k → k ≤ 40 → ∃ u : ℕ, sampleParentAge (some 50) u = min 95 (50 + k)) := by
  intro h
  obtain ⟨u, hu⟩ := h 40 (by norm_num) (by norm_num)
  have hup := npRandintVal_upper 18 40 u (by norm_num)
  have hlo := npRandintVal_lower 18 40 u
  simp only [sampleParentAge] at hu
  omega

/-- C8 (amended): with a householder present, the parent age is the
householder's age plus an offset drawn uniformly from 18 to 39 inclusive,
capped at 95; every offset in that range is attainable. -/
theorem sampleParentAge_spec (hAge : ℤ) (u : ℕ) :
    sampleParentAge (some hAge) u = min 95 (hAge + npRandintVal 18 40 u) ∧
    (18 ≤ npRandintVal 18 40 u ∧ npRandintVal 18 40 u ≤ 39) ∧
    (∀ k : ℤ, 18 ≤ k → k ≤ 39 → ∃ v : ℕ, npRandintVal 18 40 v = k) := by
  refine ⟨rfl, ⟨npRandintVal_lower _ _ _, ?_⟩, ?_⟩
  · have := npRandintVal_upper 18 40 u (by norm_num)
    omega
  · intro k hk1 hk2
    refine ⟨(k - 18).toNat, ?_⟩
    unfold npRandintVal
    have h22 : ((40 : ℤ) - 18).toNat = 22 := by decide
    rw [h22]
    omega

/-- Witness for C8's amended theorem: concrete instantiation, discharging the
attainability hypotheses at offset 25. -/
theorem sampleParentAge_spec_witness :
    sampleParentAge (some 50) 0 = min 95 (50 + npRandintVal 18 40 0) ∧
    ∃ v : ℕ, npRandintVal 18 40 v = 25 :=
  ⟨(sampleParentAge_spec 50 0).1,
   (sampleParentAge_spec 50 0).2.2 25 (by norm_num) (by norm_num)⟩

/-! ## Child Generator: age sampling (child_generator.py) -/

/-- Model of `ChildGenerator._sample_child_age` (child_generator.py lines
366-404).  `tableAge?` is `some a` when the `child_age_distributions` table
yields a group-sampled age `a` (any integer `_sample_age_from_child_group`
can produce), and `none` on the fallback path (table missing or no matching
bracket row); `u` is the fallback `np.random.randint(0, max_child_age + 1)`
draw. -/
def sampleChildAge (refAge minGap : ℤ) (tableAge? : Option ℤ) (u : ℕ) : ℤ :=
  let maxChildAge := min 17 (refAge - minGap)
  if maxChildAge < 0 then 0
  else
    match tableAge? with
    | some age => max 0 (min maxChildAge age)
    | none => npRandintVal 0 (maxChildAge + 1) u

/-- C3: whenever the reference adult is at least `minGap` years old (true for
every generator-reachable reference adult: biological/step children use the
youngest adult, who is at least 18 ≥ 14, and grandchildren use the oldest
adult of a multigenerational household, whose householder is clamped to at
least 30 ≥ 28 by `sampleHouseholderAge`), the sampled child age keeps
`reference_adult.age - child.age ≥ minGap`. -/
theorem sampleChildAge_gap (refAge minGap : ℤ) (tableAge? : Option ℤ) (u : ℕ)
    (h : minGap ≤ refAge) :
    minGap ≤ refAge - sampleChildAge refAge minGap tableAge? u := by
  simp only [sampleChildAge]
  split
  · omega
  · cases tableAge? with
    | some age => dsimp only; omega
    | none =>
      have h1 := npRandintVal_lower 0 (min 17 (refAge - minGap) + 1) u
      have h2 := npRandintVal_upper 0 (min 17 (refAge - minGap) + 1) u (by omega)
      dsimp only
      omega

/-- Witness for C3: a 30-year-old reference adult and the grandchild gap 28,
on both table and fallback sampling paths. -/
theorem sampleChildAge_gap_witness :
    28 ≤ 30 - sampleChildAge 30 28 (some 5) 3 ∧
    28 ≤ 30 - sampleChildAge 30 28 none 3 :=
  ⟨sampleChildAge_gap 30 28 (some 5) 3 (by norm_num),
   sampleChildAge_gap 30 28 none 3 (by norm_num)⟩

/-! ## Entity Model (models.py) -/

/-- `RelationshipType` (models.py lines 28-41). -/
inductive RelationshipType
  | householder
  | spouse
  | unmarried_partner
  | biological_child
  | adopted_child
  | stepchild
  | grandchild
  | parent
  | sibling
  | other_relative
  | roommate
  | other_nonrelative
  deriving DecidableEq, Repr

/-- `Person` (models.py lines 69-124), with exactly the dataclass's fields.
The per-source income fields are `wage_income`, `self_employment_income`,
`social_security_income`, `retirement_income`, `interest_income`,
`dividend_income`, `other_income` and `public_assistance_income`: the
dataclass declares no unemployment-income field. -/
structure Person where
  person_id : String := ""
  relationship : RelationshipType
  age : ℤ := 0
  sex : String := ""
  race : String := ""
  hispanic_origin : Bool := false
  employment_status : String := ""
  education : String := ""
  occupation_code : Option String := none
  occupation_title : Option String := none
  has_disability : Bool := false
  wage_income : ℤ := 0
  self_employment_income : ℤ := 0
  social_security_income : ℤ := 0
  retirement_income : ℤ := 0
  interest_income : ℤ := 0
  dividend_income : ℤ := 0
  other_income : ℤ := 0
  public_assistance_income : ℤ := 0
  is_dependent : Bool := false
  can_be_claimed : Bool := false
  student_loan_interest : ℤ := 0
  educator_expenses : ℤ := 0
  ira_contributions : ℤ := 0
  deriving DecidableEq, Repr

/-- `Person.total_income` (models.py lines 113-124). -/
def Person.total_income (p : Person) : ℤ :=
  p.wage_income + p.self_employment_income + p.social_security_income +
  p.retirement_income + p.interest_income + p.dividend_income +
  p.other_income + p.public_assistance_income

/-- `Person.is_adult`: age 18 or older. -/
def Person.is_adult (p : Person) : Bool := 18 ≤ p.age

/-- `Person.is_child`: age under 18. -/
def Person.is_child (p : Person) : Bool := p.age < 18

/-- `Household` (models.py lines 174-222), restricted to the fields the
examined stages read or write. -/
structure Household where
  household_id : String := ""
  state : String := "HI"
  year : ℤ := 2023
  pattern : String
  members : List Person := []
  expected_adults : Option ℤ := none
  expected_children_range : Option (ℤ × ℤ) := none
  expected_complexity : Option String := none
  multigenerational_subpattern : Option String := none
  property_taxes : ℤ := 0
  mortgage_interest : ℤ := 0
  state_income_tax : ℤ := 0
  medical_expenses : ℤ := 0
  charitable_contributions : ℤ := 0
  student_loan_interest : ℤ := 0
  educator_expenses : ℤ := 0
  ira_contributions : ℤ := 0
  child_care_expenses : ℤ := 0
  education_expenses : ℤ := 0
  total_itemized_deductions : ℤ := 0
  total_above_line_deductions : ℤ := 0
  deriving DecidableEq, Repr

/-- `Household.get_adults`. -/
def Household.get_adults (h : Household) : List Person :=
  h.members.filter (·.is_adult)

/-- `Household.get_children`. -/
def Household.get_children (h : Household) : List Person :=
  h.members.filter (·.is_child)

/-- `Household.adult_count`. -/
def Household.adult_count (h : Household) : ℕ := h.get_adults.length

/-- `Household.child_count`. -/
def Household.child_count (h : Household) : ℕ := h.get_children.length

/-- `Household.total_household_income`. -/
def Household.total_household_income (h : Household) : ℤ :=
  (h.members.map Person.total_income).sum

/-- `Household.get_householder`: first member with the householder
relationship. -/
def Household.get_householder (h : Household) : Option Person :=
  h.members.find? (·.relationship = RelationshipType.householder)

/-! ## Income Generator: unemployment income (income_generator.py) -/

/-- `INCOME_CAPS` (income_generator.py lines 37-47). -/
def INCOME_CAPS (source : String) : ℤ :=
  if source = "wage" then 500000
  else if source = "self_employment" then 250000
  else if source = "unemployment" then 30000
  else if source = "social_security" then 50000
  else if source = "retirement" then 200000
  else if source = "interest" then 100000
  else if source = "dividend" then 100000
  else if source = "other" then 50000
  else if source = "public_assistance" then 15000
  else 0

/-- Model of `IncomeGenerator._calculate_unemployment_income`
(income_generator.py lines 380-402).  `uPart` is the `np.random.random()`
participation draw, `uBen` the unit draw behind
`np.random.uniform(250, 650)`, `uWeeks` the `np.random.randint(10, 27)`
draw. -/
def calcUnemploymentIncome (uPart uBen : ℚ) (uWeeks : ℕ) : ℤ :=
  if 40/100 ≤ uPart then 0
  else
    let weeklyBenefit := npUniform 250 650 uBen
    let weeksCollected := npRandintVal 10 27 uWeeks
    min (pyInt (weeklyBenefit * (weeksCollected : ℚ))) (INCOME_CAPS "unemployment")

/-- Pre-sampled results of the per-source income calculators consumed by
`_assign_adult_income`; the wage, self-employment, social-security,
retirement, investment and other-income calculators are abstracted as the
values they return, while the unemployment branch is embedded in full via
`calcUnemploymentIncome`. -/
structure AdultIncomeDraws where
  wageVal : ℤ := 0
  seVal : ℤ := 0
  uPart : ℚ := 0
  uBen : ℚ := 0
  uWeeks : ℕ := 0
  ssVal : ℤ := 0
  retVal : ℤ := 0
  intVal : ℤ := 0
  divVal : ℤ := 0
  othVal : ℤ := 0

/-- Model of `IncomeGenerator._assign_adult_income` (income_generator.py
lines 166-199).  Note the source's unemployment branch writes its result
into `wage_income` (its comment: storing in wage_income field for
simplicity). -/
def assignAdultIncome (p : Person) (d : AdultIncomeDraws) : Person :=
  let p1 := if p.employment_status = "employed" then
      { p with wage_income := d.wageVal, self_employment_income := d.seVal }
    else p
  let p2 := if p.employment_status = "unemployed" then
      { p1 with wage_income := calcUnemploymentIncome d.uPart d.uBen d.uWeeks }
    else p1
  let p3 := if 62 ≤ p.age ∨ p.has_disability = true then
      { p2 with social_security_income := d.ssVal }
    else p2
  let p4 := if 55 ≤ p.age then { p3 with retirement_income := d.retVal } else p3
  { p4 with interest_income := d.intVal, dividend_income := d.divVal,
            other_income := d.othVal }

/-- C4 counterexample: an unemployed adult whose participation draw succeeds
receives the unemployment benefit (250 dollars a week for 10 weeks here) in
the `wage_income` field, not in a dedicated unemployment field — the `Person`
record has none. -/
theorem unemployment_lands_in_wage_field :
    (assignAdultIncome
        { relationship := RelationshipType.householder, age := 30,
          employment_status := "unemployed" }
        { uPart := 0, uBen := 0, uWeeks := 0 }).wage_income = 2500 ∧
    (2500 : ℤ) ≠ 0 := by
  constructor
  · show (assignAdultIncome _ _).wage_income = 2500
    simp only [assignAdultIncome, calcUnemploymentIncome, npUniform,
      npRandintVal, pyInt]
    norm_num
    decide
  · norm_num

/-- C4 (amended): unemployment income is assigned only on the unemployed
branch, with 40% participation, amount equal to the weekly benefit
(uniform in `[250, 650)`) times a number of weeks drawn from 10 to 26, capped
at the unemployment cap of 30000 — but it is stored in the `wage_income`
field, as `Person` has no per-source unemployment field. -/
theorem assignAdultIncome_unemployment (p : Person) (d : AdultIncomeDraws)
    (h : p.employment_status = "unemployed") :
    (assignAdultIncome p d).wage_income =
      calcUnemploymentIncome d.uPart d.uBen d.uWeeks ∧
    (40/100 ≤ d.uPart → calcUnemploymentIncome d.uPart d.uBen d.uWeeks = 0) ∧
    (d.uPart < 40/100 →
      calcUnemploymentIncome d.uPart d.uBen d.uWeeks =
        min (pyInt (npUniform 250 650 d.uBen * (npRandintVal 10 27 d.uWeeks : ℚ)))
          (INCOME_CAPS "unemployment") ∧
      10 ≤ npRandintVal 10 27 d.uWeeks ∧ npRandintVal 10 27 d.uWeeks ≤ 26) ∧
    calcUnemploymentIncome d.uPart d.uBen d.uWeeks ≤ INCOME_CAPS "unemployment" := by
  have hne : p.employment_status ≠ "employed" := by rw [h]; decide
  refine ⟨?_, ?_, ?_, ?_⟩
  · simp only [assignAdultIncome, if_neg hne, if_pos h]
    split_ifs <;> rfl
  · intro hp
    simp only [calcUnemploymentIncome, if_pos hp]
  · intro hp
    have hp' : ¬ (40/100 ≤ d.uPart) := not_le.mpr hp
    refine ⟨by simp only [calcUnemploymentIncome, if_neg hp'], ?_, ?_⟩
    · exact npRandintVal_lower 10 27 d.uWeeks
    · have := npRandintVal_upper 10 27 d.uWeeks (by norm_num)
      omega
  · by_cases hp : 40/100 ≤ d.uPart
    · simp only [calcUnemploymentIncome, if_pos hp]
      decide
    · simp only [calcUnemploymentIncome, if_neg hp]
      exact min_le_right _ _

/-- Witness for C4's amended theorem at a concrete unemployed person. -/
theorem assignAdultIncome_unemployment_witness :
    (assignAdultIncome
        { relationship := RelationshipType.spouse, age := 40,
          employment_status := "unemployed" }
        { uPart := 1/2 }).wage_income =
      calcUnemploymentIncome (1/2) 0 0 ∧
    calcUnemploymentIncome (1/2) 0 0 = 0 := by
  have h := assignAdultIncome_unemployment
    { relationship := RelationshipType.spouse, age := 40,
      employment_status := "unemployed" }
    { uPart := 1/2 } rfl
  exact ⟨h.1, h.2.1 (by norm_num)⟩

/-! ## Stage 2/3: relationship assignment (adult_generator.py,
child_generator.py) -/

/-- `expected_adults` from `PATTERN_METADATA` (models.py lines 343-400):
`Sum.inl` for a fixed count, `Sum.inr` for a range; unknown patterns use the
`other` metadata, matching `PATTERN_METADATA.get(p, PATTERN_METADATA['other'])`. -/
def expectedAdults (pattern : String) : ℤ ⊕ (ℤ × ℤ) :=
  if pattern = "married_couple_no_children" then Sum.inl 2
  else if pattern = "married_couple_with_children" then Sum.inl 2
  else if pattern = "single_parent" then Sum.inl 1
  else if pattern = "single_adult" then Sum.inl 1
  else if pattern = "blended_family" then Sum.inl 2
  else if pattern = "multigenerational" then Sum.inr (2, 4)
  else if pattern = "unmarried_partners" then Sum.inl 2
  else Sum.inr (1, 5)

/-- Model of `AdultGenerator._determine_adult_count` (adult_generator.py
lines 115-123): ranges use `np.random.randint(lo, hi + 1)`. -/
def determineAdultCount (pattern : String) (u : ℕ) : ℤ :=
  match expectedAdults pattern with
  | Sum.inl n => n
  | Sum.inr lohi => npRandintVal lohi.1 (lohi.2 + 1) u

theorem one_le_determineAdultCount (pattern : String) (u : ℕ) :
    1 ≤ determineAdultCount pattern u := by
  have h1 := npRandintVal_lower 2 (4 + 1) u
  have h2 := npRandintVal_lower 1 (5 + 1) u
  unfold determineAdultCount expectedAdults
  split_ifs <;> dsimp only <;> omega

/-- Model of `AdultGenerator._assign_relationships` (adult_generator.py lines
125-178).  `subDraw?` is `some s` when the `multigenerational_patterns` table
is present and nonempty and the weighted draw returns sub-pattern `s`; `none`
models the missing-table fallback.  Returns the relationship list together
with the `multigenerational_subpattern` value stored on the household. -/
def assignRelationships (pattern : String) (numAdults : ℤ)
    (subDraw? : Option String) : List RelationshipType × Option String :=
  if pattern = "single_adult" ∨ pattern = "single_parent" then
    ([RelationshipType.householder], none)
  else if pattern = "married_couple_no_children" ∨
          pattern = "married_couple_with_children" ∨
          pattern = "blended_family" then
    ([RelationshipType.householder, RelationshipType.spouse], none)
  else if pattern = "unmarried_partners" then
    ([RelationshipType.householder, RelationshipType.unmarried_partner], none)
  else if pattern = "multigenerational" then
    match subDraw? with
    | some sub =>
      let rels :=
        if sub = "grandparent_with_grandchildren" then
          if 2 ≤ numAdults then
            [RelationshipType.householder, RelationshipType.spouse]
          else [RelationshipType.householder]
        else if sub = "adult_with_parent" then
          if 3 ≤ numAdults then
            [RelationshipType.householder, RelationshipType.parent,
             RelationshipType.spouse]
          else [RelationshipType.householder, RelationshipType.parent]
        else if sub = "four_generations" then
          if 3 ≤ numAdults then
            [RelationshipType.householder, RelationshipType.parent,
             RelationshipType.spouse]
          else [RelationshipType.householder, RelationshipType.parent]
        else [RelationshipType.householder]
      (rels.take numAdults.toNat, some sub)
    | none =>
      (RelationshipType.householder ::
         List.replicate (numAdults - 1).toNat RelationshipType.parent,
       some "adult_with_parent")
  else
    (RelationshipType.householder ::
       List.replicate (numAdults - 1).toNat RelationshipType.other_relative,
     none)

/-- `PATTERNS_WITH_CHILDREN` (child_generator.py lines 27-33). -/
def PATTERNS_WITH_CHILDREN : List String :=
  ["married_couple_with_children", "single_parent", "blended_family",
   "multigenerational", "unmarried_partners"]

/-- Remove the element at index `i` of a list, returning it together with the
remaining elements. -/
def pickOut {α : Type} : List α → ℕ → Option (α × List α)
  | [], _ => none
  | a :: rest, 0 => some (a, rest)
  | a :: rest, i + 1 => (pickOut rest i).map (fun p => (p.1, a :: p.2))

theorem pickOut_perm {α : Type} :
    ∀ (l : List α) (i : ℕ) (p : α × List α),
      pickOut l i = some p → l.Perm (p.1 :: p.2) := by
  intro l
  induction l with
  | nil => intro i p h; simp [pickOut] at h
  | cons a rest ih =>
    intro i p h
    cases i with
    | zero =>
      simp only [pickOut, Option.some_inj] at h
      rw [← h]
    | succ i =>
      simp only [pickOut, Option.map_eq_some'] at h
      obtain ⟨q, hq, hqp⟩ := h
      have := ih i q hq
      rw [← hqp]
      exact (this.cons a).trans (List.Perm.swap q.1 a q.2)

/-- Fuel-indexed body of the shuffle: the `k`-th draw of the stream `us`
selects which remaining element comes next. -/
def npShuffleAux {α : Type} (us : ℕ → ℕ) : ℕ → List α → ℕ → List α
  | 0, l, _ => l
  | fuel + 1, l, k =>
    match pickOut l (us k % l.length) with
    | some (b, r) => b :: npShuffleAux us fuel r (k + 1)
    | none => l

/-- Model of `np.random.shuffle`: a permutation of the input list determined
by the draw stream `us` starting at draw index `k`. -/
def npShuffle {α : Type} (us : ℕ → ℕ) (l : List α) (k : ℕ) : List α :=
  npShuffleAux us l.length l k

theorem npShuffleAux_perm {α : Type} (us : ℕ → ℕ) :
    ∀ (fuel : ℕ) (l : List α) (k : ℕ), (npShuffleAux us fuel l k).Perm l := by
  intro fuel
  induction fuel with
  | zero => intro l k; exact List.Perm.refl _
  | succ fuel ih =>
    intro l k
    simp only [npShuffleAux]
    cases hpk : pickOut l (us k % l.length) with
    | none => exact List.Perm.refl _
    | some p =>
      obtain ⟨b, r⟩ := p
      have hperm := pickOut_perm l (us k % l.length) (b, r) hpk
      exact (((ih r (k + 1)).cons b).trans hperm.symm)

theorem npShuffle_perm {α : Type} (us : ℕ → ℕ) (l : List α) (k : ℕ) :
    (npShuffle us l k).Perm l :=
  npShuffleAux_perm us l.length l k

/-- Model of `ChildGenerator._assign_blended_family_relationships`
(child_generator.py lines 231-270).  `stepDraw?` is the sampled
`stepchild_patterns` row's pattern name (`none` when the table is missing or
empty, which takes the identical fallback split); `us` feeds the shuffle.
The source's substring tests `'step_only' in pattern_name` are modelled with
`String.splitOn`. -/
def assignBlendedFamilyRelationships (numChildren : ℕ)
    (stepDraw? : Option String) (us : ℕ → ℕ) : List RelationshipType :=
  let numStep := max 1 (numChildren / 2)
  let numBio := numChildren - numStep
  let mix := npShuffle us
    (List.replicate numBio RelationshipType.biological_child ++
     List.replicate numStep RelationshipType.stepchild) 0
  match stepDraw? with
  | some name =>
    if 2 ≤ (name.splitOn "step_only").length then
      List.replicate numChildren RelationshipType.stepchild
    else if 2 ≤ (name.splitOn "bio_only").length then
      List.replicate numChildren RelationshipType.biological_child
    else mix
  | none => mix

/-- Model of `ChildGenerator._assign_multigenerational_child_relationships`
(child_generator.py lines 272-321).  `storedSub?` is
`household.multigenerational_subpattern`; `fallbackDraw?` models the re-draw
from `multigenerational_patterns` when it was never set; `singleBio` is the
`np.random.choice` between biological child and grandchild for the
single-child four-generations case. -/
def assignMultigenChildRelationships (numChildren : ℕ)
    (storedSub? fallbackDraw? : Option String) (us : ℕ → ℕ)
    (singleBio : Bool) : List RelationshipType :=
  let sub := match storedSub? with
    | some s => s
    | none => match fallbackDraw? with
      | some s => s
      | none => "adult_with_parent"
  if sub = "grandparent_with_grandchildren" then
    List.replicate numChildren RelationshipType.grandchild
  else if sub = "adult_with_parent" then
    List.replicate numChildren RelationshipType.biological_child
  else if sub = "four_generations" then
    if 2 ≤ numChildren then
      let numGrand := max 1 (numChildren / 2)
      let numBio := numChildren - numGrand
      npShuffle us
        (List.replicate numBio RelationshipType.biological_child ++
         List.replicate numGrand RelationshipType.grandchild) 0
    else
      [if singleBio then RelationshipType.biological_child
       else RelationshipType.grandchild]
  else List.replicate numChildren RelationshipType.biological_child

/-- Model of `ChildGenerator._assign_child_relationships` (child_generator.py
lines 205-229). -/
def assignChildRelationships (pattern : String) (numChildren : ℕ)
    (storedSub? fallbackDraw? stepDraw? : Option String) (us : ℕ → ℕ)
    (singleBio : Bool) : List RelationshipType :=
  if numChildren = 0 then []
  else if pattern = "blended_family" then
    assignBlendedFamilyRelationships numChildren stepDraw? us
  else if pattern = "multigenerational" then
    assignMultigenChildRelationships numChildren storedSub? fallbackDraw? us
      singleBio
  else List.replicate numChildren RelationshipType.biological_child

/-- Demographic values sampled for one generated person; each field stands
for the result of the corresponding `_sample_*` / `_determine_*` call of the
adult or child generator. -/
structure DemoDraws where
  age : ℤ := 0
  sex : String := ""
  race : String := ""
  hispanic : Bool := false
  employment : String := ""
  education : String := ""
  occupation_code : Option String := none
  occupation_title : Option String := none
  has_disability : Bool := false

/-- Common shape of `AdultGenerator._generate_single_adult` and
`ChildGenerator._generate_single_child`: a `Person` carrying the given
relationship and the sampled demographics. -/
def mkPerson (rel : RelationshipType) (d : DemoDraws) : Person :=
  { relationship := rel, age := d.age, sex := d.sex, race := d.race,
    hispanic_origin := d.hispanic, employment_status := d.employment,
    education := d.education, occupation_code := d.occupation_code,
    occupation_title := d.occupation_title,
    has_disability := d.has_disability }

/-- Generate one person per relationship, the `i`-th from draw bundle
`ds i`. -/
def mkMembers : List RelationshipType → (ℕ → DemoDraws) → ℕ → List Person
  | [], _, _ => []
  | rel :: rest, ds, i => mkPerson rel (ds i) :: mkMembers rest ds (i + 1)

theorem mkMembers_map_relationship (rels : List RelationshipType)
    (ds : ℕ → DemoDraws) : ∀ i, (mkMembers rels ds i).map Person.relationship = rels := by
  induction rels with
  | nil => intro i; rfl
  | cons rel rest ih =>
    intro i
    simp only [mkMembers, List.map_cons, ih (i + 1), mkPerson]

/-- Model of `HouseholdGenerator.generate_stage1`'s household construction
(pipeline.py lines 139-149): a fresh household carrying the selected pattern
and empty member list (metadata fields are not at issue in the claims). -/
def mkHousehold (pattern : String) (members : List Person) : Household :=
  { pattern := pattern, members := members }

/-- Count of householder relationships in a truncated list headed by the
householder, when the tail has none. -/
theorem count_householder_take (tl : List RelationshipType)
    (htl : tl.count RelationshipType.householder = 0) (k : ℕ) (hk : 1 ≤ k) :
    ((RelationshipType.householder :: tl).take k).count
      RelationshipType.householder = 1 := by
  cases k with
  | zero => omega
  | succ k =>
    simp only [List.take_succ_cons, List.count_cons_self]
    have hsub : (tl.take k).Sublist tl := List.take_sublist k tl
    have := hsub.count_le RelationshipType.householder
    omega

theorem count_householder_adultRels (pattern : String) (numAdults : ℤ)
    (subDraw? : Option String) (h : 1 ≤ numAdults) :
    ((assignRelationships pattern numAdults subDraw?).1).count
      RelationshipType.householder = 1 := by
  have hk : 1 ≤ numAdults.toNat := by omega
  have hrepl : ∀ (n : ℕ) (r : RelationshipType),
      r ≠ RelationshipType.householder →
      (RelationshipType.householder :: List.replicate n r).count
        RelationshipType.householder = 1 := by
    intro n r hr
    rw [List.count_cons_self, List.count_replicate]
    simp [hr]
  unfold assignRelationships
  by_cases h1 : pattern = "single_adult" ∨ pattern = "single_parent"
  · rw [if_pos h1]; rfl
  · rw [if_neg h1]
    by_cases h2 : pattern = "married_couple_no_children" ∨
        pattern = "married_couple_with_children" ∨ pattern = "blended_family"
    · rw [if_pos h2]; rfl
    · rw [if_neg h2]
      by_cases h3 : pattern = "unmarried_partners"
      · rw [if_pos h3]; rfl
      · rw [if_neg h3]
        by_cases h4 : pattern = "multigenerational"
        · rw [if_pos h4]
          cases subDraw? with
          | none => exact hrepl _ _ (by decide)
          | some sub =>
            dsimp only
            split_ifs <;> exact count_householder_take _ (by decide) _ hk
        · rw [if_neg h4]
          exact hrepl _ _ (by decide)

theorem count_householder_childRels (pattern : String) (numChildren : ℕ)
    (storedSub? fallbackDraw? stepDraw? : Option String) (us : ℕ → ℕ)
    (singleBio : Bool) :
    (assignChildRelationships pattern numChildren storedSub? fallbackDraw?
        stepDraw? us singleBio).count RelationshipType.householder = 0 := by
  have hrep : ∀ (n : ℕ) (r : RelationshipType),
      r ≠ RelationshipType.householder →
      (List.replicate n r).count RelationshipType.householder = 0 := by
    intro n r hr
    rw [List.count_replicate]
    simp [hr]
  have hmix : ∀ (nb ns k : ℕ) (r1 r2 : RelationshipType),
      r1 ≠ RelationshipType.householder → r2 ≠ RelationshipType.householder →
      (npShuffle us (List.replicate nb r1 ++ List.replicate ns r2) k).count
        RelationshipType.householder = 0 := by
    intro nb ns k r1 r2 h1 h2
    rw [(npShuffle_perm us _ k).count_eq, List.count_append,
      hrep _ _ h1, hrep _ _ h2]
  unfold assignChildRelationships
  by_cases h0 : numChildren = 0
  · rw [if_pos h0]; rfl
  · rw [if_neg h0]
    by_cases h1 : pattern = "blended_family"
    · rw [if_pos h1]
      unfold assignBlendedFamilyRelationships
      cases stepDraw? with
      | none =>
        dsimp only
        exact hmix _ _ _ _ _ (by decide) (by decide)
      | some name =>
        dsimp only
        split_ifs <;>
          first
          | exact hrep _ _ (by decide)
          | exact hmix _ _ _ _ _ (by decide) (by decide)
    · rw [if_neg h1]
      by_cases h2 : pattern = "multigenerational"
      · rw [if_pos h2]
        unfold assignMultigenChildRelationships
        dsimp only
        split_ifs <;>
          first
          | exact hrep _ _ (by decide)
          | exact hmix _ _ _ _ _ (by decide) (by decide)
          | (cases singleBio <;> decide)
      · rw [if_neg h2]
        exact hrep _ _ (by decide)

/-- Partition of a member list into adults and children. -/
theorem filter_adult_child_partition (l : List Person) :
    (l.filter (·.is_adult)).length + (l.filter (·.is_child)).length = l.length := by
  induction l with
  | nil => rfl
  | cons p rest ih =>
    cases h : p.is_adult with
    | false =>
      have h2 : p.is_child = true := by
        simp only [Person.is_adult, decide_eq_false_iff_not, not_le] at h
        simp only [Person.is_child, decide_eq_true_eq]
        omega
      simp [List.filter_cons, h, h2]
      omega
    | true =>
      have h2 : p.is_child = false := by
        simp only [Person.is_adult, decide_eq_true_eq] at h
        simp only [Person.is_child, decide_eq_false_iff_not, not_lt]
        omega
      simp [List.filter_cons, h, h2]
      omega

/-- Composition of Stage 2 and Stage 3 member generation
(`AdultGenerator.generate_adults` followed by
`ChildGenerator.generate_children`, as sequenced by
`HouseholdGenerator.generate_household`): the adult persons for the
pattern's relationship list, then the child persons, appended in generation
order.  `numChildren` ranges over every value `_determine_child_count` could
return. -/
def stage23Members (pattern : String) (uAdults : ℕ)
    (subDraw? fallbackDraw? stepDraw? : Option String) (numChildren : ℕ)
    (adultDs childDs : ℕ → DemoDraws) (us : ℕ → ℕ) (singleBio : Bool) :
    List Person :=
  let rs := assignRelationships pattern (determineAdultCount pattern uAdults)
    subDraw?
  let adults := mkMembers rs.1 adultDs 0
  let children :=
    if pattern ∈ PATTERNS_WITH_CHILDREN then
      if adults.filter (·.is_adult) = [] then []
      else
        mkMembers
          (assignChildRelationships pattern numChildren rs.2 fallbackDraw?
            stepDraw? us singleBio) childDs 0
    else []
  adults ++ children

/-- C5: for every household assembled by the pipeline's member-generating
stages, `adult_count + child_count` equals the number of members, and exactly
one member is the householder. -/
theorem household_member_invariants (pattern : String) (uAdults : ℕ)
    (subDraw? fallbackDraw? stepDraw? : Option String) (numChildren : ℕ)
    (adultDs childDs : ℕ → DemoDraws) (us : ℕ → ℕ) (singleBio : Bool) :
    (mkHousehold pattern (stage23Members pattern uAdults subDraw? fallbackDraw?
        stepDraw? numChildren adultDs childDs us singleBio)).adult_count +
      (mkHousehold pattern (stage23Members pattern uAdults subDraw? fallbackDraw?
        stepDraw? numChildren adultDs childDs us singleBio)).child_count =
      (stage23Members pattern uAdults subDraw? fallbackDraw? stepDraw?
        numChildren adultDs childDs us singleBio).length ∧
    ((stage23Members pattern uAdults subDraw? fallbackDraw? stepDraw?
        numChildren adultDs childDs us singleBio).map Person.relationship).count
      RelationshipType.householder = 1 := by
  constructor
  · exact filter_adult_child_partition _
  · unfold stage23Members
    dsimp only
    rw [List.map_append, List.count_append]
    rw [mkMembers_map_relationship]
    have hadults := count_householder_adultRels pattern
      (determineAdultCount pattern uAdults) subDraw?
      (one_le_determineAdultCount pattern uAdults)
    rw [hadults]
    have hchild : ∀ (rels : List RelationshipType),
        rels.count RelationshipType.householder = 0 →
        ((mkMembers rels childDs 0).map Person.relationship).count
          RelationshipType.householder = 0 := by
      intro rels hr
      rw [mkMembers_map_relationship]
      exact hr
    split_ifs
    · simp
    · rw [hchild _ (count_householder_childRels pattern numChildren _
        fallbackDraw? stepDraw? us singleBio)]
    · simp

/-! ## Expense Generator (expense_generator.py) -/

/-- `SALT_CAP` (expense_generator.py line 73). -/
def SALT_CAP : ℤ := 10000

/-- `int(household.total_household_income() * 0.075)` (expense_generator.py
line 751): the 7.5% medical floor, truncated toward zero. -/
def medicalFloor (income : ℤ) : ℤ := pyInt ((income : ℚ) * (75/1000))

/-- Per-adult update loop of `_assign_above_line_deductions` (lines 508-519):
adults receive the results of the three per-person calculators (abstracted
here as the pre-sampled values `sli i`, `ee i`, `ira i` for the `i`-th
member); children are skipped. -/
def updMembers : List Person → (ℕ → ℤ) → (ℕ → ℤ) → (ℕ → ℤ) → ℕ → List Person
  | [], _, _, _, _ => []
  | p :: rest, sli, ee, ira, i =>
    (if p.is_adult then
      { p with student_loan_interest := sli i, educator_expenses := ee i,
               ira_contributions := ira i }
     else p) :: updMembers rest sli ee ira (i + 1)

/-- Model of `ExpenseGenerator._assign_above_line_deductions`
(expense_generator.py lines 505-530): per-adult field updates followed by the
household totals, each the sum over all members. -/
def assignAboveLineDeductions (h : Household) (sli ee ira : ℕ → ℤ) : Household :=
  let ms := updMembers h.members sli ee ira 0
  { h with members := ms,
           student_loan_interest := (ms.map (·.student_loan_interest)).sum,
           educator_expenses := (ms.map (·.educator_expenses)).sum,
           ira_contributions := (ms.map (·.ira_contributions)).sum }

/-- Model of `ExpenseGenerator._calculate_totals` (expense_generator.py lines
744-760). -/
def calculateTotals (h : Household) : Household :=
  { h with
    total_itemized_deductions :=
      min (h.property_taxes + h.state_income_tax) SALT_CAP +
      h.mortgage_interest +
      max 0 (h.medical_expenses - medicalFloor h.total_household_income) +
      h.charitable_contributions,
    total_above_line_deductions :=
      h.student_loan_interest + h.educator_expenses + h.ira_contributions }

/-- C9: after the totals step, `total_itemized_deductions` is the
SALT-capped property-plus-state-tax sum plus mortgage interest plus the
medical excess over the 7.5%-of-income floor plus charitable contributions,
and `total_above_line_deductions` is the sum of the household's three
above-the-line fields, which in turn are the member sums set by
`_assign_above_line_deductions`. -/
theorem expense_totals_spec (h : Household) (sli ee ira : ℕ → ℤ) :
    (calculateTotals (assignAboveLineDeductions h sli ee ira)).total_itemized_deductions =
      min ((calculateTotals (assignAboveLineDeductions h sli ee ira)).property_taxes +
            (calculateTotals (assignAboveLineDeductions h sli ee ira)).state_income_tax)
          SALT_CAP +
        (calculateTotals (assignAboveLineDeductions h sli ee ira)).mortgage_interest +
        max 0 ((calculateTotals (assignAboveLineDeductions h sli ee ira)).medical_expenses -
          medicalFloor
            (calculateTotals (assignAboveLineDeductions h sli ee ira)).total_household_income) +
        (calculateTotals (assignAboveLineDeductions h sli ee ira)).charitable_contributions ∧
    (calculateTotals (assignAboveLineDeductions h sli ee ira)).total_above_line_deductions =
      (calculateTotals (assignAboveLineDeductions h sli ee ira)).student_loan_interest +
        (calculateTotals (assignAboveLineDeductions h sli ee ira)).educator_expenses +
        (calculateTotals (assignAboveLineDeductions h sli ee ira)).ira_contributions ∧
    (calculateTotals (assignAboveLineDeductions h sli ee ira)).total_above_line_deductions =
      (((calculateTotals (assignAboveLineDeductions h sli ee ira)).members.map
          (·.student_loan_interest)).sum +
       ((calculateTotals (assignAboveLineDeductions h sli ee ira)).members.map
          (·.educator_expenses)).sum +
       ((calculateTotals (assignAboveLineDeductions h sli ee ira)).members.map
          (·.ira_contributions)).sum) :=
  ⟨rfl, rfl, rfl⟩

/-! ## Expense Generator: progressive state income tax -/

/-- A tax bracket: upper bound (`none` models `float('inf')`) and rate. -/
abbrev TaxBracket := Option ℚ × ℚ

/-- `HAWAII_TAX_BRACKETS_SINGLE` (expense_generator.py lines 29-42). -/
def HAWAII_TAX_BRACKETS_SINGLE : List TaxBracket :=
  [(some 2400, 14/1000), (some 4800, 32/1000), (some 9600, 55/1000),
   (some 14400, 64/1000), (some 19200, 68/1000), (some 24000, 72/1000),
   (some 36000, 76/1000), (some 48000, 79/1000), (some 150000, 825/10000),
   (some 175000, 9/100), (some 200000, 10/100), (none, 11/100)]

/-- `HAWAII_TAX_BRACKETS_MFJ` (expense_generator.py lines 45-58). -/
def HAWAII_TAX_BRACKETS_MFJ : List TaxBracket :=
  [(some 4800, 14/1000), (some 9600, 32/1000), (some 19200, 55/1000),
   (some 28800, 64/1000), (some 38400, 68/1000), (some 48000, 72/1000),
   (some 72000, 76/1000), (some 96000, 79/1000), (some 300000, 825/10000),
   (some 350000, 9/100), (some 400000, 10/100), (none, 11/100)]

/-- `min(income, bracket_max)` with `none` as infinity. -/
def minCap (income : ℚ) : Option ℚ → ℚ
  | none => income
  | some b => min income b

/-- `income <= prev_bracket` with `none` as infinity (the loop's break
test). -/
def leCapB (income : ℚ) : Option ℚ → Bool
  | none => true
  | some p => decide (income ≤ p)

/-- Loop body of `_calculate_progressive_tax` (expense_generator.py lines
412-425), carrying `prev_bracket` (initially 0, becoming each bracket's upper
bound in turn). -/
def progressiveTaxLoop (income : ℚ) : List TaxBracket → Option ℚ → ℚ
  | [], _ => 0
  | (bmax, rate) :: rest, prev =>
    if leCapB income prev then 0
    else (minCap income bmax - prev.getD 0) * rate +
         progressiveTaxLoop income rest bmax

/-- `_calculate_progressive_tax`: run the loop from `prev_bracket = 0` and
truncate with `int(...)`. -/
def calculateProgressiveTax (income : ℤ) (brackets : List TaxBracket) : ℤ :=
  pyInt (progressiveTaxLoop (income : ℚ) brackets (some 0))

/-- Model of `ExpenseGenerator._assign_state_income_tax` (expense_generator.py
lines 397-410): married patterns use the joint schedule, everything else the
single schedule. -/
def assignStateIncomeTax (h : Household) : Household :=
  let brackets :=
    if h.pattern = "married_couple_with_children" ∨
       h.pattern = "married_couple_no_children"
    then HAWAII_TAX_BRACKETS_MFJ else HAWAII_TAX_BRACKETS_SINGLE
  { h with state_income_tax :=
      calculateProgressiveTax h.total_household_income brackets }

/-- All rates in the schedule are nonnegative. -/
def ratesNonnegB : List TaxBracket → Bool
  | [] => true
  | (_, rate) :: rest => decide (0 ≤ rate) && ratesNonnegB rest

/-- `prev ≤ bound` with `none` as infinity. -/
def capLeB : Option ℚ → Option ℚ → Bool
  | _, none => true
  | none, some _ => false
  | some p, some b => decide (p ≤ b)

/-- The bracket bounds ascend starting from `prev`. -/
def bracketChainB : Option ℚ → List TaxBracket → Bool
  | _, [] => true
  | prev, (bmax, _) :: rest => capLeB prev bmax && bracketChainB bmax rest

theorem progressiveTaxLoop_nonneg (income : ℚ) :
    ∀ (bs : List TaxBracket) (prev : Option ℚ),
      ratesNonnegB bs = true → bracketChainB prev bs = true →
      0 ≤ progressiveTaxLoop income bs prev := by
  intro bs
  induction bs with
  | nil => intro prev _ _; exact le_refl 0
  | cons hd rest ih =>
    intro prev hr hc
    obtain ⟨bmax, rate⟩ := hd
    simp only [ratesNonnegB, Bool.and_eq_true, decide_eq_true_eq] at hr
    simp only [bracketChainB, Bool.and_eq_true] at hc
    simp only [progressiveTaxLoop]
    split_ifs with hle
    · exact le_refl 0
    · have hrest := ih bmax hr.2 hc.2
      have hterm : 0 ≤ (minCap income bmax - prev.getD 0) * rate := by
        apply mul_nonneg _ hr.1
        cases prev with
        | none => simp [leCapB] at hle
        | some p =>
          simp only [leCapB, decide_eq_true_eq] at hle
          push_neg at hle
          cases bmax with
          | none =>
            simp only [minCap, Option.getD]
            linarith
          | some b =>
            have hpb : p ≤ b := by
              simpa [capLeB, decide_eq_true_eq] using hc.1
            simp only [minCap, Option.getD]
            have hmin : p ≤ min income b := le_min (le_of_lt hle) hpb
            linarith
      linarith

theorem progressiveTaxLoop_mono (x y : ℚ) (hxy : x ≤ y) :
    ∀ (bs : List TaxBracket) (prev : Option ℚ),
      ratesNonnegB bs = true → bracketChainB prev bs = true →
      progressiveTaxLoop x bs prev ≤ progressiveTaxLoop y bs prev := by
  intro bs
  induction bs with
  | nil => intro prev _ _; exact le_refl 0
  | cons hd rest ih =>
    intro prev hr hc
    obtain ⟨bmax, rate⟩ := hd
    have hrAll := hr
    have hcAll := hc
    simp only [ratesNonnegB, Bool.and_eq_true, decide_eq_true_eq] at hr
    simp only [bracketChainB, Bool.and_eq_true] at hc
    simp only [progressiveTaxLoop]
    split_ifs with h1 h2 h2
    · exact le_refl 0
    · have heq : (minCap y bmax - prev.getD 0) * rate +
          progressiveTaxLoop y rest bmax =
          progressiveTaxLoop y ((bmax, rate) :: rest) prev := by
        simp only [progressiveTaxLoop, if_neg h2]
      rw [heq]
      exact progressiveTaxLoop_nonneg y _ prev hrAll hcAll
    · exfalso
      cases prev with
      | none => simp [leCapB] at h1
      | some p =>
        simp only [leCapB, decide_eq_true_eq] at h1 h2
        exact h1 (le_trans hxy h2)
    · have hmins : minCap x bmax ≤ minCap y bmax := by
        cases bmax with
        | none => exact hxy
        | some b => exact min_le_min hxy (le_refl b)
      have hterm : (minCap x bmax - prev.getD 0) * rate ≤
          (minCap y bmax - prev.getD 0) * rate := by
        apply mul_le_mul_of_nonneg_right _ hr.1
        linarith
      have hrest := ih bmax hr.2 hc.2
      linarith

theorem hawaii_single_ok :
    ratesNonnegB HAWAII_TAX_BRACKETS_SINGLE = true ∧
    bracketChainB (some 0) HAWAII_TAX_BRACKETS_SINGLE = true := by
  constructor <;>
    norm_num [ratesNonnegB, bracketChainB, capLeB, HAWAII_TAX_BRACKETS_SINGLE]

theorem hawaii_mfj_ok :
    ratesNonnegB HAWAII_TAX_BRACKETS_MFJ = true ∧
    bracketChainB (some 0) HAWAII_TAX_BRACKETS_MFJ = true := by
  constructor <;>
    norm_num [ratesNonnegB, bracketChainB, capLeB, HAWAII_TAX_BRACKETS_MFJ]

/-- C10: the progressive tax computation is monotone non-decreasing in income
on both Hawaii schedules, returns 0 for any income at most 0 on any schedule,
and the assigned household state income tax is always nonnegative. -/
theorem progressiveTax_properties :
    (∀ x y : ℤ, x ≤ y →
      calculateProgressiveTax x HAWAII_TAX_BRACKETS_SINGLE ≤
        calculateProgressiveTax y HAWAII_TAX_BRACKETS_SINGLE ∧
      calculateProgressiveTax x HAWAII_TAX_BRACKETS_MFJ ≤
        calculateProgressiveTax y HAWAII_TAX_BRACKETS_MFJ) ∧
    (∀ (x : ℤ) (bs : List TaxBracket), x ≤ 0 → calculateProgressiveTax x bs = 0) ∧
    (∀ h : Household, 0 ≤ (assignStateIncomeTax h).state_income_tax) := by
  have hmono : ∀ (bs : List TaxBracket), ratesNonnegB bs = true →
      bracketChainB (some 0) bs = true → ∀ x y : ℤ, x ≤ y →
      calculateProgressiveTax x bs ≤ calculateProgressiveTax y bs := by
    intro bs hr hc x y hxy
    unfold calculateProgressiveTax
    have hxq : ((x : ℚ)) ≤ (y : ℚ) := by exact_mod_cast hxy
    exact pyInt_mono (progressiveTaxLoop_nonneg _ bs _ hr hc)
      (progressiveTaxLoop_mono _ _ hxq bs _ hr hc)
  have hnn : ∀ (bs : List TaxBracket) (x : ℤ), ratesNonnegB bs = true →
      bracketChainB (some 0) bs = true →
      0 ≤ calculateProgressiveTax x bs := by
    intro bs x hr hc
    exact pyInt_nonneg (progressiveTaxLoop_nonneg _ bs _ hr hc)
  refine ⟨fun x y hxy => ⟨hmono _ hawaii_single_ok.1 hawaii_single_ok.2 x y hxy,
    hmono _ hawaii_mfj_ok.1 hawaii_mfj_ok.2 x y hxy⟩, ?_, ?_⟩
  · intro x bs hx
    have hq : ((x : ℚ)) ≤ 0 := by exact_mod_cast hx
    have hloop : progressiveTaxLoop (x : ℚ) bs (some 0) = 0 := by
      cases bs with
      | nil => rfl
      | cons hd rest =>
        obtain ⟨bmax, rate⟩ := hd
        simp only [progressiveTaxLoop]
        rw [if_pos]
        simp only [leCapB, decide_eq_true_eq]
        exact hq
    unfold calculateProgressiveTax
    rw [hloop]
    simp [pyInt]
  · intro h
    unfold assignStateIncomeTax
    dsimp only
    split_ifs
    · exact hnn _ _ hawaii_mfj_ok.1 hawaii_mfj_ok.2
    · exact hnn _ _ hawaii_single_ok.1 hawaii_single_ok.2

/-- Witness for C10: monotonicity at 0 ≤ 50000 on the single schedule and
the zero result at income -5 on the joint schedule. -/
theorem progressiveTax_properties_witness :
    calculateProgressiveTax 0 HAWAII_TAX_BRACKETS_SINGLE ≤
      calculateProgressiveTax 50000 HAWAII_TAX_BRACKETS_SINGLE ∧
    calculateProgressiveTax (-5) HAWAII_TAX_BRACKETS_MFJ = 0 :=
  ⟨(progressiveTax_properties.1 0 50000 (by norm_num)).1,
   progressiveTax_properties.2.1 (-5) HAWAII_TAX_BRACKETS_MFJ (by norm_num)⟩

/-! ## Sampling Engine: bracket grammar (sampler.py)

Bracket strings are modelled by their character lists (Lean's `String`
library functions do not reduce in the kernel, and the Python operations
involved — `strip`, `split`, `int`, `startswith`, `endswith` — are plain
character-level functions). -/

/-- Python `str.strip()`: drop whitespace from both ends. -/
def pyStrip (s : List Char) : List Char :=
  ((s.dropWhile Char.isWhitespace).reverse.dropWhile Char.isWhitespace).reverse

/-- Accumulator loop for a digits-only run. -/
def digitsToNatAux : ℕ → List Char → Option ℕ
  | acc, [] => some acc
  | acc, c :: rest =>
    if c.isDigit then digitsToNatAux (acc * 10 + (c.toNat - 48)) rest
    else none

/-- A nonempty digits-only run parsed as a natural number. -/
def digitsToNat : List Char → Option ℕ
  | [] => none
  | l => digitsToNatAux 0 l

/-- Python `int(...)` on a string: optional surrounding whitespace, optional
sign, then a nonempty digit run; `none` models the `ValueError`. -/
def pyIntParse (s : List Char) : Option ℤ :=
  match pyStrip s with
  | '-' :: ds => (digitsToNat ds).map (fun n => -(n : ℤ))
  | '+' :: ds => (digitsToNat ds).map (fun n => (n : ℤ))
  | ds => (digitsToNat ds).map (fun n => (n : ℤ))

/-- Python `str.split(sep)` for a one-character separator. -/
def pySplit (c : Char) : List Char → List (List Char)
  | [] => [[]]
  | a :: rest =>
    match pySplit c rest with
    | [] => [[]]
    | g :: gs => if a = c then [] :: g :: gs else (a :: g) :: gs

/-- Model of `np.random.randint(lo, hi)` with its `ValueError` when
`lo >= hi`. -/
def npRandint (lo hi : ℤ) (u : ℕ) : Except String ℤ :=
  if lo < hi then Except.ok (npRandintVal lo hi u)
  else Except.error "low >= high"

/-- Model of `match_age_bracket` (sampler.py lines 129-172): the bracket
membership test, with the source's try/except blocks returning `false` on
parse failure. -/
def match_age_bracket (age : ℤ) (bracket : List Char) : Bool :=
  let b := pyStrip bracket
  if b.head? = some '<' then
    match pyIntParse b.tail with
    | some maxAge => decide (age < maxAge)
    | none => false
  else if b.getLast? = some '+' then
    match pyIntParse b.dropLast with
    | some minAge => decide (minAge ≤ age)
    | none => false
  else if b.contains '-' then
    match pySplit '-' b with
    | s0 :: s1 :: _ =>
      match pyIntParse s0, pyIntParse s1 with
      | some minAge, some maxAge => decide (minAge ≤ age ∧ age ≤ maxAge)
      | _, _ => false
    | _ => false
  else
    match pyIntParse b with
    | some v => decide (age = v)
    | none => false

/-- Model of `sample_age_from_bracket` (sampler.py lines 175-206): `u` is the
`np.random.randint` draw, `e` is `int(np.random.exponential(10))` (a
nonnegative integer) for the open-high tail; unparsable brackets raise (the
source has no try/except here). -/
def sample_age_from_bracket (bracket : List Char) (u e : ℕ) : Except String ℤ :=
  let b := pyStrip bracket
  if b.head? = some '<' then
    match pyIntParse b.tail with
    | some maxAge => npRandint 0 maxAge u
    | none => Except.error "invalid literal for int"
  else if b.getLast? = some '+' then
    match pyIntParse b.dropLast with
    | some minAge => Except.ok (minAge + (e : ℤ))
    | none => Except.error "invalid literal for int"
  else if b.contains '-' then
    match pySplit '-' b with
    | s0 :: s1 :: _ =>
      match pyIntParse s0, pyIntParse s1 with
      | some minAge, some maxAge => npRandint minAge (maxAge + 1) u
      | _, _ => Except.error "invalid literal for int"
    | _ => Except.error "list index out of range"
  else
    match pyIntParse b with
    | some v => Except.ok v
    | none => Except.error "invalid literal for int"

/-- C6: every value `sample_age_from_bracket` returns satisfies
`match_age_bracket` for the same bracket string — in particular for closed
ranges `"A-B"` and open-low brackets `"<N"` (the claim's two shapes; the
open-high and scalar shapes hold as well). -/
theorem sample_age_matches_bracket (bracket : List Char) (u e : ℕ) (v : ℤ)
    (h : sample_age_from_bracket bracket u e = Except.ok v) :
    match_age_bracket v bracket = true := by
  simp only [sample_age_from_bracket] at h
  simp only [match_age_bracket]
  by_cases h1 : (pyStrip bracket).head? = some '<'
  · rw [if_pos h1] at h ⊢
    cases hp : pyIntParse (pyStrip bracket).tail with
    | none => rw [hp] at h; simp at h
    | some maxAge =>
      rw [hp] at h
      dsimp only at h ⊢
      unfold npRandint at h
      split_ifs at h with hlt
      simp only [Except.ok.injEq] at h
      have hup := npRandintVal_upper 0 maxAge u hlt
      simp only [decide_eq_true_eq]
      omega
  · rw [if_neg h1] at h ⊢
    by_cases h2 : (pyStrip bracket).getLast? = some '+'
    · rw [if_pos h2] at h ⊢
      cases hp : pyIntParse (pyStrip bracket).dropLast with
      | none => rw [hp] at h; simp at h
      | some minAge =>
        rw [hp] at h
        dsimp only at h ⊢
        simp only [Except.ok.injEq] at h
        simp only [decide_eq_true_eq]
        omega
    · rw [if_neg h2] at h ⊢
      by_cases h3 : (pyStrip bracket).contains '-'
      · rw [if_pos h3] at h ⊢
        cases hsp : pySplit '-' (pyStrip bracket) with
        | nil => rw [hsp] at h; simp at h
        | cons s0 tl =>
          cases tl with
          | nil => rw [hsp] at h; simp at h
          | cons s1 tl2 =>
            rw [hsp] at h
            dsimp only at h ⊢
            cases hp0 : pyIntParse s0 with
            | none =>
              rw [hp0] at h
              simp at h
            | some minAge =>
              rw [hp0] at h
              try dsimp only at h ⊢
              cases hp1 : pyIntParse s1 with
              | none =>
                rw [hp1] at h
                simp at h
              | some maxAge =>
                rw [hp1] at h
                dsimp only at h ⊢
                unfold npRandint at h
                split_ifs at h with hlt
                simp only [Except.ok.injEq] at h
                have hup := npRandintVal_upper minAge (maxAge + 1) u hlt
                have hlo := npRandintVal_lower minAge (maxAge + 1) u
                simp only [decide_eq_true_eq]
                constructor <;> omega
      · rw [if_neg h3] at h ⊢
        cases hp : pyIntParse (pyStrip bracket) with
        | none => rw [hp] at h; simp at h
        | some n =>
          rw [hp] at h
          dsimp only at h ⊢
          simp only [Except.ok.injEq] at h
          simp only [decide_eq_true_eq]
          omega

/-- Witness for C6: the closed range 25-34 (draw 3 yields 28) and the
open-low bracket under 10 (draw 3 yields 3). -/
theorem sample_age_matches_bracket_witness :
    match_age_bracket 28 "25-34".toList = true ∧
    match_age_bracket 3 "<10".toList = true :=
  ⟨sample_age_matches_bracket "25-34".toList 3 0 28 rfl,
   sample_age_matches_bracket "<10".toList 3 0 3 rfl⟩

/-! ## Pipeline Orchestrator (pipeline.py)

The stages' inner sampling is wired to a single stream of draws, modelling
the process-wide `np.random` state: `set_random_seed` replaces the stream
with one determined by the seed alone.  Stage-internal details that the
orchestrator claims do not depend on (the individual demographic and income
table lookups, and `_determine_child_count`) are abstracted to
stream-derived draws; the stage sequencing, the threading of the household
and of the random state, and the recorded stage tags follow the source. -/

/-- The pipeline's stages (pipeline.py lines 78-285; stages 5-7 appear only
as TODO comments in `generate_household`). -/
inductive Stage
  | structure_selection
  | adult_generation
  | child_generation
  | income_assignment
  | expense_assignment
  deriving DecidableEq, Repr

/-- The process-wide random source: a stream of raw draws and the position of
the next one. -/
structure Rng where
  stream : ℕ → ℕ
  pos : ℕ

/-- Model of `set_random_seed` (sampler.py lines 209-216, `np.random.seed`):
the subsequent draw stream is a fixed function of the seed alone (the precise
MT19937 stream is abstracted; only its functional determination by the seed
matters here). -/
def setRandomSeed (seed : ℤ) : Rng :=
  { stream := fun n => (seed.natAbs + 7919 * n) % 104729, pos := 0 }

/-- Consume one raw draw. -/
def drawNat (r : Rng) : ℕ × Rng :=
  (r.stream r.pos, { stream := r.stream, pos := r.pos + 1 })

/-- A unit-interval draw derived from the stream (model of
`np.random.random()` and of the draw behind `np.random.choice`). -/
def drawUnit (r : Rng) : ℚ × Rng :=
  let (n, r1) := drawNat r
  (((n % 1000000 : ℕ) : ℚ) / 1000000, r1)

/-- A `household_patterns`-style table row: pattern name and weight. -/
structure PatternRow where
  pattern : String
  weight : ℚ
  deriving DecidableEq

/-- The distribution tables the orchestrator-level claims touch; `none`
models an absent table. -/
structure Tables where
  household_patterns : Option (List PatternRow) := none
  multigenerational_patterns : Option (List PatternRow) := none
  stepchild_patterns : Option (List PatternRow) := none

/-- `complexity` from `PATTERN_METADATA` (models.py lines 343-400). -/
def patternComplexity (pattern : String) : String :=
  if pattern = "married_couple_no_children" ∨
     pattern = "married_couple_with_children" ∨
     pattern = "single_parent" ∨ pattern = "single_adult" then "simple"
  else if pattern = "blended_family" ∨ pattern = "multigenerational" ∨
          pattern = "unmarried_partners" then "complex"
  else "medium"

/-- Model of `HouseholdGenerator.generate_stage1` (pipeline.py lines 82-152):
the required-table check, the forced-pattern check, the complexity filter and
the weighted pattern draw. -/
def generateStage1 (t : Tables) (complexity? pattern? : Option String)
    (r : Rng) : Except String (Household × Rng) :=
  match t.household_patterns with
  | none => Except.error "No household patterns found"
  | some rows =>
    if rows = [] then Except.error "No household patterns found"
    else
      match pattern? with
      | some p =>
        if rows.any (fun row => row.pattern == p) then
          Except.ok (mkHousehold p [], r)
        else Except.error "Pattern not found"
      | none =>
        let filtered := match complexity? with
          | some c => rows.filter (fun row => patternComplexity row.pattern == c)
          | none => rows
        if filtered = [] then Except.error "No patterns with complexity"
        else
          let (u, r1) := drawUnit r
          match weightedSample filtered (fun row => row.weight) u with
          | Except.ok row => Except.ok (mkHousehold row.pattern [], r1)
          | Except.error e => Except.error e

/-- Demographic draws for one person, derived from the stream. -/
def drawDemo (r : Rng) : DemoDraws × Rng :=
  let (a, r1) := drawNat r
  let (sx, r2) := drawNat r1
  ({ age := npRandintVal 18 86 a,
     sex := if sx % 2 = 0 then "M" else "F",
     employment := "employed" }, r2)

/-- Generate one person per relationship, consuming stream draws in order. -/
def mkMembersR : List RelationshipType → Rng → List Person × Rng
  | [], r => ([], r)
  | rel :: rest, r =>
    let (d, r1) := drawDemo r
    let (ps, r2) := mkMembersR rest r1
    (mkPerson rel d :: ps, r2)

/-- Model of `HouseholdGenerator.generate_stage2` (pipeline.py lines 158-179)
over `AdultGenerator.generate_adults`: adult count, multigenerational
sub-pattern draw, relationship assignment, adult generation, and the member
and sub-pattern mutation of the same household.  (A degenerate
`weighted_sample` failure on the sub-pattern table is modelled as the
missing-table fallback.) -/
def generateStage2 (t : Tables) (h : Household) (r : Rng) : Household × Rng :=
  let (uA, r1) := drawNat r
  let numAdults := determineAdultCount h.pattern uA
  let subres : Option String × Rng :=
    if h.pattern = "multigenerational" then
      match t.multigenerational_patterns with
      | some rows =>
        if rows.length ≠ 0 then
          let (u, r2) := drawUnit r1
          match weightedSample rows (fun row => row.weight) u with
          | Except.ok row => (some row.pattern, r2)
          | Except.error _ => (none, r2)
        else (none, r1)
      | none => (none, r1)
    else (none, r1)
  let rs := assignRelationships h.pattern numAdults subres.1
  let adultsres := mkMembersR rs.1 subres.2
  ({ h with members := adultsres.1,
            multigenerational_subpattern :=
              match rs.2 with
              | some s => some s
              | none => h.multigenerational_subpattern }, adultsres.2)

/-- Model of `HouseholdGenerator.generate_stage3` (pipeline.py lines 185-205)
over `ChildGenerator.generate_children`: no-op for patterns without children
or without adults; otherwise child count (abstracted to a stream draw),
relationship mix, child generation, and appending to the same household's
members. -/
def generateStage3 (t : Tables) (h : Household) (r : Rng) : Household × Rng :=
  if h.pattern ∈ PATTERNS_WITH_CHILDREN then
    if h.get_adults.length = 0 then (h, r)
    else
      let (uC, r1) := drawNat r
      let numChildren := uC % 6
      let stepres : Option String × Rng :=
        if h.pattern = "blended_family" then
          match t.stepchild_patterns with
          | some rows =>
            if rows.length ≠ 0 then
              let (u, r2) := drawUnit r1
              match weightedSample rows (fun row => row.weight) u with
              | Except.ok row => (some row.pattern, r2)
              | Except.error _ => (none, r2)
            else (none, r1)
          | none => (none, r1)
        else (none, r1)
      let (uS, r3) := drawNat stepres.2
      let shuffleStream : ℕ → ℕ := fun k => r3.stream (r3.pos + k)
      let r4 : Rng := { stream := r3.stream, pos := r3.pos + numChildren }
      let rels := assignChildRelationships h.pattern numChildren
        h.multigenerational_subpattern none stepres.1 shuffleStream
        (uS % 2 = 0)
      let childrenres := mkMembersR rels r4
      ({ h with members := h.members ++ childrenres.1 }, childrenres.2)
  else (h, r)

/-- Model of `IncomeGenerator._assign_child_income` (income_generator.py
lines 201-207): employed 16-17 year olds get
`int(np.random.uniform(5000, 15000))`. -/
def assignChildIncome (p : Person) (u : ℚ) : Person :=
  if p.employment_status = "employed" ∧ 16 ≤ p.age ∧ p.age ≤ 17 then
    { p with wage_income := pyInt (npUniform 5000 15000 u) }
  else p

/-- The per-adult income draws, derived from the stream. -/
def drawIncome (r : Rng) : AdultIncomeDraws × Rng :=
  let (n1, r1) := drawNat r
  let (q1, r2) := drawUnit r1
  let (q2, r3) := drawUnit r2
  let (n2, r4) := drawNat r3
  ({ wageVal := ((n1 % 100000 : ℕ) : ℤ), uPart := q1, uBen := q2,
     uWeeks := n2 }, r4)

/-- Per-member loop of `IncomeGenerator.assign_income` (income_generator.py
lines 141-164). -/
def assignIncomeMembers : List Person → Rng → List Person × Rng
  | [], r => ([], r)
  | p :: rest, r =>
    if p.is_adult then
      let (d, r1) := drawIncome r
      let restres := assignIncomeMembers rest r1
      (assignAdultIncome p d :: restres.1, restres.2)
    else
      let (uTeen, r1) := drawUnit r
      let restres := assignIncomeMembers rest r1
      (assignChildIncome p uTeen :: restres.1, restres.2)

/-- Assign the public-assistance amount to the first householder
(`household.get_householder()` mutation). -/
def setHouseholderPA : List Person → ℤ → List Person
  | [], _ => []
  | p :: rest, amt =>
    if p.relationship = RelationshipType.householder then
      { p with public_assistance_income := amt } :: rest
    else p :: setHouseholderPA rest amt

/-- Model of `IncomeGenerator._assign_public_assistance` (income_generator.py
lines 653-695): the poverty-threshold means test, with the table-driven
amount abstracted to a stream-derived draw, capped and given to the
householder. -/
def assignPublicAssistance (h : Household) (u : ℚ) : Household :=
  let povertyThreshold : ℤ := 14580 + ((h.members.length : ℤ) - 1) * 5140
  if ((h.total_household_income : ℚ)) ≥ (povertyThreshold : ℚ) * (15/10) then h
  else
    let paAmount := min (max 0 (pyInt (npUniform 1000 8000 u)))
      (INCOME_CAPS "public_assistance")
    { h with members := setHouseholderPA h.members paAmount }

/-- Model of `HouseholdGenerator.generate_stage4` (pipeline.py lines 211-240)
over `IncomeGenerator.assign_income`. -/
def generateStage4 (h : Household) (r : Rng) : Household × Rng :=
  let msres := assignIncomeMembers h.members r
  let h1 := { h with members := msres.1 }
  let (uPA, r2) := drawUnit msres.2
  (assignPublicAssistance h1 uPA, r2)

/-- Run one stage on the threaded (household, stage log, random state)
triple, recording its tag. -/
def tagStage (s : Stage) (f : Household → Rng → Household × Rng) :
    Household × List Stage × Rng → Household × List Stage × Rng :=
  fun x =>
    let res := f x.1 x.2.2
    (res.1, x.2.1 ++ [s], res.2)

/-- Model of `HouseholdGenerator.generate_household` (pipeline.py lines
246-285): seed the stream if a seed is given, then run Stage 1 through
Stage 4 in order on the same household, recording the executed stages.
Stages 5-7 are TODO comments in the source and are not invoked. -/
def generateHousehold (t : Tables) (complexity? pattern? : Option String)
    (seed? : Option ℤ) (r0 : Rng) :
    Except String (Household × List Stage × Rng) :=
  let r := match seed? with
    | some s => setRandomSeed s
    | none => r0
  match generateStage1 t complexity? pattern? r with
  | Except.error e => Except.error e
  | Except.ok x =>
    Except.ok
      (tagStage Stage.income_assignment generateStage4
        (tagStage Stage.child_generation (generateStage3 t)
          (tagStage Stage.adult_generation (generateStage2 t)
            (x.1, [Stage.structure_selection], x.2))))

/-- The stages a run executed (none when Stage 1 aborted the household). -/
def stagesOf (res : Except String (Household × List Stage × Rng)) :
    List Stage :=
  match res with
  | Except.ok x => x.2.1
  | Except.error _ => []

/-- The sampled values a seeded run consumed, in order. -/
def drawTrace (seed : ℤ)
    (res : Except String (Household × List Stage × Rng)) : List ℕ :=
  match res with
  | Except.ok x => (List.range x.2.2.pos).map (setRandomSeed seed).stream
  | Except.error _ => []

/-- A one-pattern `household_patterns` table for concrete runs. -/
def c1Tables : Tables :=
  { household_patterns := some [{ pattern := "single_adult", weight := 1 }] }

/-- C1 counterexample: a concrete successful invocation (forced pattern
`single_adult`, seed 1) runs exactly the four implemented stages — the
expense stage is absent from the executed sequence, though the claim says
five stages run. -/
theorem generateHousehold_four_stages_concrete :
    stagesOf (generateHousehold c1Tables none (some "single_adult") (some 1)
        { stream := fun _ => 0, pos := 0 }) =
      [Stage.structure_selection, Stage.adult_generation,
       Stage.child_generation, Stage.income_assignment] ∧
    Stage.expense_assignment ∉
      stagesOf (generateHousehold c1Tables none (some "single_adult") (some 1)
        { stream := fun _ => 0, pos := 0 }) := by
  have hlist : stagesOf (generateHousehold c1Tables none (some "single_adult")
      (some 1) { stream := fun _ => 0, pos := 0 }) =
      [Stage.structure_selection, Stage.adult_generation,
       Stage.child_generation, Stage.income_assignment] := rfl
  refine ⟨hlist, ?_⟩
  rw [hlist]
  decide

/-- C1 (amended): every `generate_household` invocation runs the four
implemented stages — structure selection, adult generation, child
generation, income assignment — in order on the same household (or aborts
in Stage 1); Stage 5 expense assignment exists as
`ExpenseGenerator.assign_expenses` but is never invoked by the
orchestrator. -/
theorem generateHousehold_stage_order (t : Tables)
    (complexity? pattern? : Option String) (seed? : Option ℤ) (r0 : Rng) :
    Stage.expense_assignment ∉
      stagesOf (generateHousehold t complexity? pattern? seed? r0) ∧
    (stagesOf (generateHousehold t complexity? pattern? seed? r0) = [] ∨
     stagesOf (generateHousehold t complexity? pattern? seed? r0) =
       [Stage.structure_selection, Stage.adult_generation,
        Stage.child_generation, Stage.income_assignment]) := by
  simp only [generateHousehold]
  cases generateStage1 t complexity? pattern?
      (match seed? with | some s => setRandomSeed s | none => r0) with
  | error e =>
    refine ⟨?_, Or.inl rfl⟩
    show Stage.expense_assignment ∉ ([] : List Stage)
    decide
  | ok x =>
    refine ⟨?_, Or.inr rfl⟩
    show Stage.expense_assignment ∉
      [Stage.structure_selection, Stage.adult_generation,
       Stage.child_generation, Stage.income_assignment]
    decide

/-- C7: with an explicit integer seed, the run is a function of the seed,
the tables, and the request alone — `set_random_seed` discards the incoming
random state — so two runs produce equal results and byte-identical
sequences of consumed sampled values. -/
theorem generateHousehold_deterministic (t : Tables)
    (complexity? pattern? : Option String) (seed : ℤ) (r1 r2 : Rng) :
    generateHousehold t complexity? pattern? (some seed) r1 =
      generateHousehold t complexity? pattern? (some seed) r2 ∧
    drawTrace seed (generateHousehold t complexity? pattern? (some seed) r1) =
      drawTrace seed (generateHousehold t complexity? pattern? (some seed) r2) :=
  ⟨rfl, rfl⟩

end HouseholdRNG
